import Mathlib

/-!
Verification of the snek terminal game (src/src/main.rs).

The game core is embedded shallowly:
* `Point`/`Vector` embed the euclid `Point2D<i32>`/`Vector2D<i32>` aliases with
  unbounded integer coordinates (all reachable coordinates stay far from the
  i32 bounds: the grid is at most the console size).
* `Direction` with `opposite` and `to_vector` embeds the four-variant enum.
* `Snek` embeds the struct of the same name; operations that call
  `Vec::last().unwrap()` or subtract `usize` values are `Option`-valued, with
  `none` for the panicking execution.
* `rand_point` embeds the rejection-sampling loop.  Its randomness is made
  explicit: a stream `Nat → Nat × Nat` of raw draws, where the i-th sample from
  `0..width` × `0..height` is the i-th stream value reduced modulo the bounds
  (in range whenever the bounds are positive, like `fastrand::i32(0..w)`).
  The unbounded `while` loop is given fuel; `none` means the loop was still
  running after `fuel` draws.
* `Snek.slither` returns a `SlitherOut`: `panicked` if one of its element
  accesses fails, `diverged` if the food re-draw ran out of fuel, and
  `ok snek food` for a normal return (new snake state and food out-parameter).
* `Game` keeps the fields of the `Game` struct that carry game state; the
  `ConsoleEngine` handle is an external collaborator and not modelled.
-/

namespace SnekGame

/-- Grid cell, embedding `type Point = Point2D<i32, UnknownUnit>`. -/
structure Point where
  x : Int
  y : Int
deriving DecidableEq

/-- Single-step displacement, embedding `type Vector = Vector2D<i32, UnknownUnit>`. -/
structure Vector where
  dx : Int
  dy : Int
deriving DecidableEq

/-- Point translated by a vector, as euclid's `Point2D + Vector2D`. -/
def Point.addVec (p : Point) (v : Vector) : Point :=
  ⟨p.x + v.dx, p.y + v.dy⟩

instance : HAdd Point Vector Point := ⟨Point.addVec⟩

/-- The four cardinal directions, embedding `enum Direction`. -/
inductive Direction where
  | Up
  | Down
  | Left
  | Right
deriving DecidableEq

/-- Embeds `Direction::opposite`. -/
def Direction.opposite : Direction → Direction
  | .Up => .Down
  | .Down => .Up
  | .Left => .Right
  | .Right => .Left

/-- Embeds `Direction::to_vector`. -/
def Direction.to_vector : Direction → Vector
  | .Up => ⟨0, -1⟩
  | .Down => ⟨0, 1⟩
  | .Left => ⟨-1, 0⟩
  | .Right => ⟨1, 0⟩

/-- Embeds `struct Snek`. -/
structure Snek where
  body : List Point
  start_len : Nat
  direction : Direction
  eating : Bool
  alive : Bool
deriving DecidableEq

/-- Embeds `Snek::new`. -/
def Snek.new (starting_body : List Point) : Snek :=
  { body := starting_body
    start_len := starting_body.length
    direction := .Right
    eating := false
    alive := true }

/-- The i-th uniform draw from the grid: `fastrand::i32(0..width)` paired with
`fastrand::i32(0..height)`, modelled as the i-th raw stream value reduced
modulo the bounds. -/
def draw (width height : Nat) (stream : Nat → Nat × Nat) (i : Nat) : Point :=
  ⟨((stream i).1 % width : Nat), ((stream i).2 % height : Nat)⟩

/-- The rejection-sampling loop of `rand_point`, drawing from stream index `i`
on, with `fuel` draws allowed; `none` when all `fuel` draws were rejected. -/
def rand_point_from (width height : Nat) (exclude : List Point)
    (stream : Nat → Nat × Nat) : Nat → Nat → Option Point
  | _, 0 => none
  | i, fuel + 1 =>
    let point := draw width height stream i
    if point ∈ exclude then rand_point_from width height exclude stream (i + 1) fuel
    else some point

/-- Embeds `rand_point`: draws a point, redrawing while it is in `exclude`. -/
def rand_point (width height : Nat) (exclude : List Point) (stream : Nat → Nat × Nat)
    (fuel : Nat) : Option Point :=
  rand_point_from width height exclude stream 0 fuel

/-- Embeds `Snek::eat`; `none` is the panic of `last().unwrap()` on an empty body. -/
def Snek.eat (s : Snek) (food : Point) : Option Snek :=
  match s.body.getLast? with
  | none => none
  | some last => some (if last = food then { s with eating := true } else s)

/-- Outcome of one `Snek::slither` call: a panic, an exhausted food re-draw
loop, or a normal return carrying the new snake and the food out-parameter. -/
inductive SlitherOut where
  | panicked
  | diverged
  | ok (snek : Snek) (food : Point)
deriving DecidableEq

/-- Embeds `Snek::slither`: push the new head, `eat`, then either drop the
oldest segment (not eating) or clear `eating` and re-draw the food excluding
the grown body (eating). -/
def Snek.slither (s : Snek) (food : Point) (width height : Nat)
    (stream : Nat → Nat × Nat) (fuel : Nat) : SlitherOut :=
  match s.body.getLast? with
  | none => .panicked
  | some last =>
    let s1 : Snek := { s with body := s.body ++ [last + s.direction.to_vector] }
    match s1.eat food with
    | none => .panicked
    | some s2 =>
      if !s2.eating then
        match s2.body with
        | [] => .panicked
        | _ :: rest => .ok { s2 with body := rest } food
      else
        match rand_point width height s2.body stream fuel with
        | none => .diverged
        | some p => .ok { s2 with eating := false } p

/-- Embeds `Snek::dead`; `none` is the panic of `last().unwrap()` on an empty
body.  The slice `body[0..len-1]` is the list without its last element. -/
def Snek.dead (s : Snek) (width height : Nat) : Option Bool :=
  match s.body.getLast? with
  | none => none
  | some last =>
    some (decide (last ∈ s.body.dropLast) || decide (last.x < 0) ||
      decide (last.y < 0) || decide (last.x > (width : Int) - 1) ||
      decide (last.y > (height : Int) - 1))

/-- Embeds `Snek::change_direction`. -/
def Snek.change_direction (s : Snek) (direction : Direction) : Snek :=
  if s.direction ≠ direction.opposite then { s with direction := direction } else s

/-- Embeds `Snek::score`; the `usize` subtraction is checked, `none` being the
underflow panic. -/
def Snek.score (s : Snek) : Option Nat :=
  if s.start_len ≤ s.body.length then some (s.body.length - s.start_len) else none

/-- Embeds the game-state fields of `struct Game`; the engine handle is an
external collaborator and carries no game state. -/
structure Game where
  snek : Snek
  food : Point
  paused : Bool
  width : Nat
  height : Nat
deriving DecidableEq

/-- Embeds `Game::new` (without the engine initialization); `none` when the
initial food draw ran out of fuel. -/
def Game.new (width height : Nat) (starting_body : List Point)
    (stream : Nat → Nat × Nat) (fuel : Nat) : Option Game :=
  match rand_point width height starting_body stream fuel with
  | none => none
  | some f =>
    some { snek := Snek.new starting_body
           food := f
           paused := false
           width := width
           height := height }

/-- Embeds the constant `STARTING_BODY`. -/
def STARTING_BODY : List Point := [⟨0, 0⟩, ⟨1, 0⟩, ⟨2, 0⟩, ⟨3, 0⟩]

/-- The body invariant of the spec: non-empty and no shorter than the
starting length. -/
def Snek.inv (s : Snek) : Prop :=
  s.body ≠ [] ∧ s.start_len ≤ s.body.length

/-! ### Helper lemmas about `rand_point` -/

theorem rand_point_from_not_mem (width height : Nat) (exclude : List Point)
    (stream : Nat → Nat × Nat) :
    ∀ fuel i p, rand_point_from width height exclude stream i fuel = some p →
      p ∉ exclude := by
  intro fuel
  induction fuel with
  | zero => intro i p h; simp [rand_point_from] at h
  | succ n ih =>
    intro i p h
    by_cases hc : draw width height stream i ∈ exclude
    · rw [rand_point_from, if_pos hc] at h
      exact ih (i + 1) p h
    · rw [rand_point_from, if_neg hc] at h
      cases h
      exact hc

theorem draw_in_grid (width height : Nat) (stream : Nat → Nat × Nat) (i : Nat)
    (hw : 0 < width) (hh : 0 < height) :
    0 ≤ (draw width height stream i).x ∧ (draw width height stream i).x < width ∧
      0 ≤ (draw width height stream i).y ∧ (draw width height stream i).y < height := by
  refine ⟨Int.ofNat_nonneg _, ?_, Int.ofNat_nonneg _, ?_⟩
  · show (((stream i).1 % width : Nat) : Int) < (width : Int)
    exact_mod_cast Nat.mod_lt _ hw
  · show (((stream i).2 % height : Nat) : Int) < (height : Int)
    exact_mod_cast Nat.mod_lt _ hh

theorem rand_point_from_in_grid (width height : Nat) (exclude : List Point)
    (stream : Nat → Nat × Nat) (hw : 0 < width) (hh : 0 < height) :
    ∀ fuel i p, rand_point_from width height exclude stream i fuel = some p →
      0 ≤ p.x ∧ p.x < width ∧ 0 ≤ p.y ∧ p.y < height := by
  intro fuel
  induction fuel with
  | zero => intro i p h; simp [rand_point_from] at h
  | succ n ih =>
    intro i p h
    by_cases hc : draw width height stream i ∈ exclude
    · rw [rand_point_from, if_pos hc] at h
      exact ih (i + 1) p h
    · rw [rand_point_from, if_neg hc] at h
      cases h
      exact draw_in_grid width height stream i hw hh

theorem rand_point_not_mem (width height : Nat) (exclude : List Point)
    (stream : Nat → Nat × Nat) (fuel : Nat) (p : Point)
    (h : rand_point width height exclude stream fuel = some p) : p ∉ exclude :=
  rand_point_from_not_mem width height exclude stream fuel 0 p h

theorem rand_point_in_grid (width height : Nat) (exclude : List Point)
    (stream : Nat → Nat × Nat) (fuel : Nat) (p : Point)
    (hw : 0 < width) (hh : 0 < height)
    (h : rand_point width height exclude stream fuel = some p) :
    0 ≤ p.x ∧ p.x < width ∧ 0 ≤ p.y ∧ p.y < height :=
  rand_point_from_in_grid width height exclude stream hw hh fuel 0 p h

theorem rand_point_from_none_of_cover (width height : Nat) (exclude : List Point)
    (stream : Nat → Nat × Nat) (hw : 0 < width) (hh : 0 < height)
    (hcov : ∀ p : Point, 0 ≤ p.x → p.x < width → 0 ≤ p.y → p.y < height → p ∈ exclude) :
    ∀ fuel i, rand_point_from width height exclude stream i fuel = none := by
  intro fuel
  induction fuel with
  | zero => intro i; rfl
  | succ n ih =>
    intro i
    obtain ⟨h1, h2, h3, h4⟩ := draw_in_grid width height stream i hw hh
    rw [rand_point_from, if_pos (hcov _ h1 h2 h3 h4)]
    exact ih (i + 1)

theorem rand_point_from_isSome_of_hit (width height : Nat) (exclude : List Point)
    (stream : Nat → Nat × Nat) :
    ∀ fuel i j, i ≤ j → j < i + fuel → draw width height stream j ∉ exclude →
      (rand_point_from width height exclude stream i fuel).isSome := by
  intro fuel
  induction fuel with
  | zero => intro i j hij hlt _; omega
  | succ n ih =>
    intro i j hij hlt hmiss
    by_cases hc : draw width height stream i ∈ exclude
    · rw [rand_point_from, if_pos hc]
      have hne : i ≠ j := by intro h; exact hmiss (h ▸ hc)
      exact ih (i + 1) j (by omega) (by omega) hmiss
    · rw [rand_point_from, if_neg hc]
      rfl

/-! ### Helper lemmas about `slither` -/

theorem eat_getLast (s : Snek) (food last : Point) (h : s.body.getLast? = some last) :
    s.eat food = some (if last = food then { s with eating := true } else s) := by
  rw [Snek.eat, h]

/-- The non-eating path of `slither`: head misses the food and the `eating`
flag is clear, so the grown body loses its oldest element and the food is
untouched. -/
theorem slither_not_eating (s : Snek) (food : Point) (width height : Nat)
    (stream : Nat → Nat × Nat) (fuel : Nat) (last : Point)
    (hlast : s.body.getLast? = some last) (he : s.eating = false)
    (hne : last + s.direction.to_vector ≠ food) :
    s.slither food width height stream fuel =
      .ok { s with body := s.body.tail ++ [last + s.direction.to_vector] } food := by
  have hnil : s.body ≠ [] := by
    intro h
    rw [h] at hlast
    exact Option.noConfusion hlast
  obtain ⟨body, sl, dir, eating, alive⟩ := s
  simp only at hlast he hne ⊢
  subst he
  obtain ⟨b, bs, rfl⟩ := List.exists_cons_of_ne_nil hnil
  rw [Snek.slither]
  simp only [hlast]
  rw [eat_getLast _ food (last + Direction.to_vector dir) (List.getLast?_concat _)]
  rw [if_neg hne]
  simp only [Bool.not_false, if_pos, List.cons_append]
  simp

/-- The eating path of `slither` (taken when the head lands on the food, or
when the `eating` flag was already set): the grown body is kept, `eating` is
cleared, and the food is re-drawn excluding the grown body. -/
theorem slither_eating (s : Snek) (food : Point) (width height : Nat)
    (stream : Nat → Nat × Nat) (fuel : Nat) (last : Point)
    (hlast : s.body.getLast? = some last)
    (hcond : s.eating = true ∨ last + s.direction.to_vector = food) :
    s.slither food width height stream fuel =
      match rand_point width height (s.body ++ [last + s.direction.to_vector]) stream fuel with
      | none => .diverged
      | some p =>
        .ok { s with body := s.body ++ [last + s.direction.to_vector], eating := false } p := by
  obtain ⟨body, sl, dir, eating, alive⟩ := s
  simp only at hlast hcond ⊢
  rw [Snek.slither]
  simp only [hlast]
  rw [eat_getLast _ food (last + Direction.to_vector dir) (List.getLast?_concat _)]
  by_cases hf : last + Direction.to_vector dir = food
  · rw [if_pos hf]
    simp only [Bool.not_true, Bool.false_eq_true, if_false]
  · rw [if_neg hf]
    have he : eating = true := hcond.resolve_right hf
    subst he
    simp only [Bool.not_true, Bool.false_eq_true, if_false]

/-- A non-empty body has a head (its last element). -/
theorem body_getLast_exists (s : Snek) (hnil : s.body ≠ []) :
    ∃ last, s.body.getLast? = some last := by
  have h : s.body.getLast?.isSome := List.getLast?_isSome.mpr hnil
  exact Option.isSome_iff_exists.mp h

/-- A successful `slither` implies the body was non-empty. -/
theorem slither_ok_ne_nil (s : Snek) (food : Point) (width height : Nat)
    (stream : Nat → Nat × Nat) (fuel : Nat) (s2 : Snek) (food2 : Point)
    (hok : s.slither food width height stream fuel = .ok s2 food2) : s.body ≠ [] := by
  intro h
  rw [Snek.slither] at hok
  rw [h] at hok
  exact SlitherOut.noConfusion hok

/-- Full case analysis of a successful `slither` call: the frame fields are
untouched, and the outcome is either the non-eating translation or the
eating growth with a food re-draw. -/
theorem slither_ok_spec (s : Snek) (food : Point) (width height : Nat)
    (stream : Nat → Nat × Nat) (fuel : Nat) (last : Point) (s2 : Snek) (food2 : Point)
    (hlast : s.body.getLast? = some last)
    (hok : s.slither food width height stream fuel = .ok s2 food2) :
    s2.direction = s.direction ∧ s2.start_len = s.start_len ∧ s2.alive = s.alive ∧
      ((s.eating = false ∧ last + s.direction.to_vector ≠ food ∧
          s2.body = s.body.tail ++ [last + s.direction.to_vector] ∧
          food2 = food ∧ s2.eating = false) ∨
        ((s.eating = true ∨ last + s.direction.to_vector = food) ∧
          s2.body = s.body ++ [last + s.direction.to_vector] ∧
          rand_point width height s2.body stream fuel = some food2 ∧
          s2.eating = false)) := by
  by_cases hc : s.eating = false ∧ last + s.direction.to_vector ≠ food
  · obtain ⟨he, hne⟩ := hc
    rw [slither_not_eating s food width height stream fuel last hlast he hne] at hok
    injection hok with h1 h2
    subst h1
    subst h2
    exact ⟨rfl, rfl, rfl, .inl ⟨he, hne, rfl, rfl, he⟩⟩
  · have hcond : s.eating = true ∨ last + s.direction.to_vector = food := by
      rcases Bool.eq_false_or_eq_true s.eating with h | h
      · exact .inl h
      · right
        by_contra hne
        exact hc ⟨h, hne⟩
    rw [slither_eating s food width height stream fuel last hlast hcond] at hok
    cases hr : rand_point width height (s.body ++ [last + s.direction.to_vector]) stream fuel with
    | none =>
      rw [hr] at hok
      exact SlitherOut.noConfusion hok
    | some p =>
      rw [hr] at hok
      injection hok with h1 h2
      subst h1
      subst h2
      exact ⟨rfl, rfl, rfl, .inr ⟨hcond, rfl, hr, rfl⟩⟩

/-- Under a non-empty body, `slither` never panics: the `last().unwrap()`
calls and the `remove(0)` all act on non-empty vectors. -/
theorem slither_ne_panicked (s : Snek) (food : Point) (width height : Nat)
    (stream : Nat → Nat × Nat) (fuel : Nat) (hnil : s.body ≠ []) :
    s.slither food width height stream fuel ≠ .panicked := by
  obtain ⟨last, hlast⟩ := body_getLast_exists s hnil
  by_cases hc : s.eating = false ∧ last + s.direction.to_vector ≠ food
  · rw [slither_not_eating s food width height stream fuel last hlast hc.1 hc.2]
    exact fun h => SlitherOut.noConfusion h
  · have hcond : s.eating = true ∨ last + s.direction.to_vector = food := by
      rcases Bool.eq_false_or_eq_true s.eating with h | h
      · exact .inl h
      · right
        by_contra hne
        exact hc ⟨h, hne⟩
    rw [slither_eating s food width height stream fuel last hlast hcond]
    cases rand_point width height (s.body ++ [last + s.direction.to_vector]) stream fuel with
    | none => exact fun h => SlitherOut.noConfusion h
    | some p => exact fun h => SlitherOut.noConfusion h

/-! ### Claims -/

/-- Claim C1 fails as stated: on a snake whose `eating` flag is already set,
a slither step whose new head does not land on the food still takes the
growth branch, so the body length changes, the oldest segment is kept and
the food is replaced.  Concretely: body `[(0,0)]`, direction Right, eating
set, food `(5,5)`; the new head `(1,0)` misses the food, yet the call
returns body `[(0,0),(1,0)]` (length 2, oldest kept) and a fresh food
`(2,2)`. -/
theorem C1_counterexample :
    ((⟨0, 0⟩ : Point) + Direction.Right.to_vector ≠ (⟨5, 5⟩ : Point)) ∧
      Snek.slither ⟨[⟨0, 0⟩], 1, .Right, true, true⟩ ⟨5, 5⟩ 10 10 (fun _ => (2, 2)) 5 =
        .ok ⟨[⟨0, 0⟩, ⟨1, 0⟩], 1, .Right, false, true⟩ ⟨2, 2⟩ ∧
      ¬ ((⟨[⟨0, 0⟩, ⟨1, 0⟩], 1, .Right, false, true⟩ : Snek).body.length =
          (⟨[⟨0, 0⟩], 1, .Right, true, true⟩ : Snek).body.length) := by
  decide

/-- Claim C1 (amended with: the snake's eating flag is false at entry): for
every snake with a non-empty body whose eating flag is clear, if the new head
(old head + direction vector) does not equal the food, then after one
completed slither call the body length is unchanged, the last element is the
old head plus the direction vector, the oldest (first) element of the old
body has been removed, and the food is unchanged. -/
theorem C1_slither_no_eat (s : Snek) (food : Point) (width height : Nat)
    (stream : Nat → Nat × Nat) (fuel : Nat) (last : Point) (s2 : Snek) (food2 : Point)
    (hlast : s.body.getLast? = some last) (heat : s.eating = false)
    (hne : last + s.direction.to_vector ≠ food)
    (hok : s.slither food width height stream fuel = .ok s2 food2) :
    s2.body.length = s.body.length ∧
      s2.body.getLast? = some (last + s.direction.to_vector) ∧
      s2.body = s.body.tail ++ [last + s.direction.to_vector] ∧
      food2 = food := by
  have hnil : s.body ≠ [] := by
    intro h
    rw [h] at hlast
    exact Option.noConfusion hlast
  have hpos : 0 < s.body.length := List.length_pos.mpr hnil
  obtain ⟨-, -, -, hcase⟩ :=
    slither_ok_spec s food width height stream fuel last s2 food2 hlast hok
  rcases hcase with ⟨-, -, hbody, hfood, -⟩ | ⟨hcond, -, -, -⟩
  · refine ⟨?_, ?_, hbody, hfood⟩
    · rw [hbody]
      rw [List.length_append, List.length_tail]
      simp
      omega
    · rw [hbody]
      exact List.getLast?_concat _
  · rcases hcond with h | h
    · rw [heat] at h
      exact Bool.noConfusion h
    · exact absurd h hne

/-- Witness for C1 (amended): the starting snake moving toward an off-body
food cell. -/
theorem C1_slither_no_eat_witness :
    (⟨[⟨1, 0⟩, ⟨2, 0⟩, ⟨3, 0⟩, ⟨4, 0⟩], 4, .Right, false, true⟩ : Snek).body.length =
        (Snek.new STARTING_BODY).body.length ∧
      (⟨[⟨1, 0⟩, ⟨2, 0⟩, ⟨3, 0⟩, ⟨4, 0⟩], 4, .Right, false, true⟩ : Snek).body.getLast? =
        some ((⟨3, 0⟩ : Point) + (Snek.new STARTING_BODY).direction.to_vector) ∧
      (⟨[⟨1, 0⟩, ⟨2, 0⟩, ⟨3, 0⟩, ⟨4, 0⟩], 4, .Right, false, true⟩ : Snek).body =
        (Snek.new STARTING_BODY).body.tail ++
          [(⟨3, 0⟩ : Point) + (Snek.new STARTING_BODY).direction.to_vector] ∧
      (⟨9, 9⟩ : Point) = (⟨9, 9⟩ : Point) :=
  C1_slither_no_eat (Snek.new STARTING_BODY) ⟨9, 9⟩ 17 15 (fun _ => (0, 0)) 1 ⟨3, 0⟩
    ⟨[⟨1, 0⟩, ⟨2, 0⟩, ⟨3, 0⟩, ⟨4, 0⟩], 4, .Right, false, true⟩ ⟨9, 9⟩
    (by decide) (by decide) (by decide) (by decide)

/-- Claim C2: when the new head (old head + direction vector) equals the
food, after one completed slither call the body has grown by exactly one,
the old tail (first element) is retained, the eating flag is false on
return, and the updated food is not a member of the grown body. -/
theorem C2_slither_eat (s : Snek) (food : Point) (width height : Nat)
    (stream : Nat → Nat × Nat) (fuel : Nat) (last : Point) (s2 : Snek) (food2 : Point)
    (hlast : s.body.getLast? = some last)
    (heq : last + s.direction.to_vector = food)
    (hok : s.slither food width height stream fuel = .ok s2 food2) :
    s2.body.length = s.body.length + 1 ∧ s2.body.head? = s.body.head? ∧
      s2.eating = false ∧ food2 ∉ s2.body := by
  have hnil : s.body ≠ [] := by
    intro h
    rw [h] at hlast
    exact Option.noConfusion hlast
  obtain ⟨-, -, -, hcase⟩ :=
    slither_ok_spec s food width height stream fuel last s2 food2 hlast hok
  rcases hcase with ⟨-, hne, -, -, -⟩ | ⟨-, hbody, hrand, he⟩
  · exact absurd heq hne
  · refine ⟨?_, ?_, he, ?_⟩
    · rw [hbody]
      simp
    · rw [hbody]
      rcases List.exists_cons_of_ne_nil hnil with ⟨b, bs, hb⟩
      rw [hb]
      simp
    · exact rand_point_not_mem width height s2.body stream fuel food2 hrand

/-- Witness for C2: the end-to-end scenario of the spec, a 5×5 grid with the
starting body and the food at `(4,0)`. -/
theorem C2_slither_eat_witness :
    (⟨[⟨0, 0⟩, ⟨1, 0⟩, ⟨2, 0⟩, ⟨3, 0⟩, ⟨4, 0⟩], 4, .Right, false, true⟩ : Snek).body.length =
        (Snek.new STARTING_BODY).body.length + 1 ∧
      (⟨[⟨0, 0⟩, ⟨1, 0⟩, ⟨2, 0⟩, ⟨3, 0⟩, ⟨4, 0⟩], 4, .Right, false, true⟩ : Snek).body.head? =
        (Snek.new STARTING_BODY).body.head? ∧
      (⟨[⟨0, 0⟩, ⟨1, 0⟩, ⟨2, 0⟩, ⟨3, 0⟩, ⟨4, 0⟩], 4, .Right, false, true⟩ : Snek).eating = false ∧
      (⟨2, 2⟩ : Point) ∉
        (⟨[⟨0, 0⟩, ⟨1, 0⟩, ⟨2, 0⟩, ⟨3, 0⟩, ⟨4, 0⟩], 4, .Right, false, true⟩ : Snek).body :=
  C2_slither_eat (Snek.new STARTING_BODY) ⟨4, 0⟩ 5 5 (fun _ => (2, 2)) 3 ⟨3, 0⟩
    ⟨[⟨0, 0⟩, ⟨1, 0⟩, ⟨2, 0⟩, ⟨3, 0⟩, ⟨4, 0⟩], 4, .Right, false, true⟩ ⟨2, 2⟩
    (by decide) (by decide) (by decide)

/-- Claim C3: for every snake with a non-empty body on a positive grid,
`dead` returns a value, and the value is `true` exactly when the head lies
outside `[0,width) × [0,height)` or coincides with a body segment other than
the last one. -/
theorem C3_dead_iff (s : Snek) (width height : Nat) (last : Point)
    (hw : 0 < width) (hh : 0 < height)
    (hlast : s.body.getLast? = some last) :
    (s.dead width height).isSome ∧
      (s.dead width height = some true ↔
        (last.x < 0 ∨ last.y < 0 ∨ (width : Int) ≤ last.x ∨ (height : Int) ≤ last.y ∨
          last ∈ s.body.dropLast)) := by
  rw [Snek.dead]
  simp only [hlast]
  refine ⟨rfl, ?_⟩
  simp only [Option.some.injEq, Bool.or_eq_true, decide_eq_true_eq]
  have hx : last.x > (width : Int) - 1 ↔ (width : Int) ≤ last.x := by omega
  have hy : last.y > (height : Int) - 1 ↔ (height : Int) ≤ last.y := by omega
  rw [hx, hy]
  tauto

/-- Witness for C3: the spec's self-collision scenario body on the 17×15
grid, head at `(3,0)`. -/
theorem C3_dead_iff_witness :
    ((⟨[⟨2, 2⟩, ⟨2, 1⟩, ⟨2, 0⟩, ⟨3, 0⟩], 4, .Right, false, true⟩ : Snek).dead 17 15).isSome ∧
      ((⟨[⟨2, 2⟩, ⟨2, 1⟩, ⟨2, 0⟩, ⟨3, 0⟩], 4, .Right, false, true⟩ : Snek).dead 17 15 =
          some true ↔
        ((⟨3, 0⟩ : Point).x < 0 ∨ (⟨3, 0⟩ : Point).y < 0 ∨
          ((17 : Nat) : Int) ≤ (⟨3, 0⟩ : Point).x ∨ ((15 : Nat) : Int) ≤ (⟨3, 0⟩ : Point).y ∨
          (⟨3, 0⟩ : Point) ∈
            (⟨[⟨2, 2⟩, ⟨2, 1⟩, ⟨2, 0⟩, ⟨3, 0⟩], 4, .Right, false, true⟩ : Snek).body.dropLast)) :=
  C3_dead_iff ⟨[⟨2, 2⟩, ⟨2, 1⟩, ⟨2, 0⟩, ⟨3, 0⟩], 4, .Right, false, true⟩ 17 15 ⟨3, 0⟩
    (by decide) (by decide) (by decide)

/-- Claim C4: `change_direction d` sets the direction to `d` unless `d` is
the opposite of the current direction, in which case the direction is left
unchanged; in particular a snake moving Right ignores a Left request, and
its next completed slither still moves the head one cell rightward. -/
theorem C4_change_direction (s : Snek) (d : Direction) :
    ((s.change_direction d).direction =
        if d = s.direction.opposite then s.direction else d) ∧
    (s.direction = .Right → (s.change_direction .Left).direction = .Right) ∧
    (∀ food width height stream fuel last s2 food2,
        s.direction = .Right → s.body.getLast? = some last →
        (s.change_direction .Left).slither food width height stream fuel = .ok s2 food2 →
        s2.body.getLast? = some ⟨last.x + 1, last.y⟩) := by
  refine ⟨?_, ?_, ?_⟩
  · obtain ⟨body, sl, dir, eating, alive⟩ := s
    rw [Snek.change_direction]
    cases dir <;> cases d <;> simp [Direction.opposite]
  · intro hdir
    rw [Snek.change_direction, hdir]
    simp [Direction.opposite]
    exact hdir
  · intro food width height stream fuel last s2 food2 hdir hlast hok
    have hkeep : s.change_direction .Left = s := by
      rw [Snek.change_direction, hdir]
      simp [Direction.opposite]
    rw [hkeep] at hok
    obtain ⟨-, -, -, hcase⟩ :=
      slither_ok_spec s food width height stream fuel last s2 food2 hlast hok
    have hnh : last + s.direction.to_vector = ⟨last.x + 1, last.y⟩ := by
      rw [hdir]
      show Point.addVec last (Direction.to_vector .Right) = _
      simp [Point.addVec, Direction.to_vector]
    rcases hcase with ⟨-, -, hbody, -, -⟩ | ⟨-, hbody, -, -⟩ <;>
      rw [hbody, hnh] <;> exact List.getLast?_concat _

/-- Witness for C4: the starting snake (moving Right) given a Left request;
its next slither lands the head at `(4,0)`. -/
theorem C4_change_direction_witness :
    ((Snek.new STARTING_BODY).change_direction .Left).direction = .Right ∧
      (⟨[⟨1, 0⟩, ⟨2, 0⟩, ⟨3, 0⟩, ⟨4, 0⟩], 4, .Right, false, true⟩ : Snek).body.getLast? =
        some ⟨(⟨3, 0⟩ : Point).x + 1, (⟨3, 0⟩ : Point).y⟩ :=
  ⟨(C4_change_direction (Snek.new STARTING_BODY) .Left).2.1 rfl,
    (C4_change_direction (Snek.new STARTING_BODY) .Left).2.2 ⟨9, 9⟩ 17 15 (fun _ => (0, 0)) 1
      ⟨3, 0⟩ ⟨[⟨1, 0⟩, ⟨2, 0⟩, ⟨3, 0⟩, ⟨4, 0⟩], 4, .Right, false, true⟩ ⟨9, 9⟩
      rfl (by decide) (by decide)⟩

/-- Claim C5: the food never lies on a snake-body cell: a constructed game
has its food off the starting body, and a completed slither call keeps the
food off the body whenever it was off the body at entry. -/
theorem C5_food_not_on_body :
    (∀ width height starting_body stream fuel g,
        Game.new width height starting_body stream fuel = some g →
        g.food ∉ g.snek.body) ∧
    (∀ (s : Snek) food width height stream fuel s2 food2,
        food ∉ s.body →
        s.slither food width height stream fuel = .ok s2 food2 →
        food2 ∉ s2.body) := by
  constructor
  · intro width height starting_body stream fuel g hg
    rw [Game.new] at hg
    cases hr : rand_point width height starting_body stream fuel with
    | none =>
      rw [hr] at hg
      exact Option.noConfusion hg
    | some f =>
      rw [hr] at hg
      injection hg with hg
      subst hg
      exact rand_point_not_mem width height starting_body stream fuel f hr
  · intro s food width height stream fuel s2 food2 hmem hok
    have hnil := slither_ok_ne_nil s food width height stream fuel s2 food2 hok
    obtain ⟨last, hlast⟩ := body_getLast_exists s hnil
    obtain ⟨-, -, -, hcase⟩ :=
      slither_ok_spec s food width height stream fuel last s2 food2 hlast hok
    rcases hcase with ⟨-, hne, hbody, hfood, -⟩ | ⟨-, -, hrand, -⟩
    · subst hfood
      rw [hbody]
      intro hin
      rcases List.mem_append.mp hin with h | h
      · exact hmem (List.mem_of_mem_tail h)
      · rw [List.mem_singleton] at h
        exact hne h.symm
    · exact rand_point_not_mem width height s2.body stream fuel food2 hrand

/-- Witness for C5: a constructed 5×5 game whose first rejected draw hits the
body, and a non-eating slither of the starting snake. -/
theorem C5_food_not_on_body_witness :
    ((⟨Snek.new STARTING_BODY, ⟨1, 1⟩, false, 5, 5⟩ : Game).food ∉
        (⟨Snek.new STARTING_BODY, ⟨1, 1⟩, false, 5, 5⟩ : Game).snek.body) ∧
      (⟨9, 9⟩ : Point) ∉
        (⟨[⟨1, 0⟩, ⟨2, 0⟩, ⟨3, 0⟩, ⟨4, 0⟩], 4, .Right, false, true⟩ : Snek).body :=
  ⟨C5_food_not_on_body.1 5 5 STARTING_BODY (fun i => (i, i)) 5
      ⟨Snek.new STARTING_BODY, ⟨1, 1⟩, false, 5, 5⟩ (by decide),
    C5_food_not_on_body.2 (Snek.new STARTING_BODY) ⟨9, 9⟩ 17 15 (fun _ => (0, 0)) 1
      ⟨[⟨1, 0⟩, ⟨2, 0⟩, ⟨3, 0⟩, ⟨4, 0⟩], 4, .Right, false, true⟩ ⟨9, 9⟩
      (by decide) (by decide)⟩

/-- Claim C6: every Snek operation preserves the body invariant (non-empty,
length at least start_len), and under the invariant no operation panics:
slither never hits a failing unwrap or remove, `dead` and `eat` find their
head, and the score subtraction does not underflow. -/
theorem C6_invariant_no_panic :
    (∀ (s : Snek) food width height stream fuel s2 food2, s.inv →
        s.slither food width height stream fuel = .ok s2 food2 → s2.inv) ∧
    (∀ (s : Snek) d, s.inv → (s.change_direction d).inv) ∧
    (∀ (s : Snek) food s2, s.inv → s.eat food = some s2 → s2.inv) ∧
    (∀ (s : Snek) food width height stream fuel, s.inv →
        s.slither food width height stream fuel ≠ .panicked) ∧
    (∀ (s : Snek) width height, s.inv → (s.dead width height).isSome) ∧
    (∀ (s : Snek) food, s.inv → (s.eat food).isSome) ∧
    (∀ s : Snek, s.inv → s.score.isSome) := by
  refine ⟨?_, ?_, ?_, ?_, ?_, ?_, ?_⟩
  · intro s food width height stream fuel s2 food2 hinv hok
    obtain ⟨hne, hle⟩ := hinv
    obtain ⟨last, hlast⟩ := body_getLast_exists s hne
    have hpos : 0 < s.body.length := List.length_pos.mpr hne
    obtain ⟨-, hsl, -, hcase⟩ :=
      slither_ok_spec s food width height stream fuel last s2 food2 hlast hok
    rcases hcase with ⟨-, -, hbody, -, -⟩ | ⟨-, hbody, -, -⟩
    · constructor
      · rw [hbody]
        simp
      · rw [hsl, hbody]
        rw [List.length_append, List.length_tail]
        simp
        omega
    · constructor
      · rw [hbody]
        simp
      · rw [hsl, hbody]
        rw [List.length_append]
        simp
        omega
  · intro s d hinv
    have hb : (s.change_direction d).body = s.body := by
      rw [Snek.change_direction]
      split <;> rfl
    have hs : (s.change_direction d).start_len = s.start_len := by
      rw [Snek.change_direction]
      split <;> rfl
    constructor
    · rw [hb]
      exact hinv.1
    · rw [hb, hs]
      exact hinv.2
  · intro s food s2 hinv hok
    obtain ⟨last, hlast⟩ := body_getLast_exists s hinv.1
    rw [eat_getLast s food last hlast] at hok
    injection hok with hok
    subst hok
    by_cases hf : last = food
    · rw [if_pos hf]
      exact ⟨hinv.1, hinv.2⟩
    · rw [if_neg hf]
      exact hinv
  · intro s food width height stream fuel hinv
    exact slither_ne_panicked s food width height stream fuel hinv.1
  · intro s width height hinv
    obtain ⟨last, hlast⟩ := body_getLast_exists s hinv.1
    rw [Snek.dead]
    simp only [hlast]
    rfl
  · intro s food hinv
    obtain ⟨last, hlast⟩ := body_getLast_exists s hinv.1
    rw [eat_getLast s food last hlast]
    rfl
  · intro s hinv
    rw [Snek.score, if_pos hinv.2]
    rfl

/-- Witness for C6: the operations evaluated on the starting snake. -/
theorem C6_invariant_no_panic_witness :
    (⟨[⟨1, 0⟩, ⟨2, 0⟩, ⟨3, 0⟩, ⟨4, 0⟩], 4, .Right, false, true⟩ : Snek).inv ∧
      ((Snek.new STARTING_BODY).change_direction .Up).inv ∧
      (⟨[⟨0, 0⟩, ⟨1, 0⟩, ⟨2, 0⟩, ⟨3, 0⟩], 4, .Right, true, true⟩ : Snek).inv ∧
      Snek.slither (Snek.new STARTING_BODY) ⟨9, 9⟩ 17 15 (fun _ => (0, 0)) 1 ≠ .panicked ∧
      ((Snek.new STARTING_BODY).dead 17 15).isSome ∧
      ((Snek.new STARTING_BODY).eat ⟨4, 0⟩).isSome ∧
      (Snek.new STARTING_BODY).score.isSome :=
  ⟨C6_invariant_no_panic.1 (Snek.new STARTING_BODY) ⟨9, 9⟩ 17 15 (fun _ => (0, 0)) 1
      ⟨[⟨1, 0⟩, ⟨2, 0⟩, ⟨3, 0⟩, ⟨4, 0⟩], 4, .Right, false, true⟩ ⟨9, 9⟩
      ⟨by decide, by decide⟩ (by decide),
    C6_invariant_no_panic.2.1 (Snek.new STARTING_BODY) .Up ⟨by decide, by decide⟩,
    C6_invariant_no_panic.2.2.1 (Snek.new STARTING_BODY) ⟨3, 0⟩
      ⟨[⟨0, 0⟩, ⟨1, 0⟩, ⟨2, 0⟩, ⟨3, 0⟩], 4, .Right, true, true⟩
      ⟨by decide, by decide⟩ (by decide),
    C6_invariant_no_panic.2.2.2.1 (Snek.new STARTING_BODY) ⟨9, 9⟩ 17 15 (fun _ => (0, 0)) 1
      ⟨by decide, by decide⟩,
    C6_invariant_no_panic.2.2.2.2.1 (Snek.new STARTING_BODY) 17 15 ⟨by decide, by decide⟩,
    C6_invariant_no_panic.2.2.2.2.2.1 (Snek.new STARTING_BODY) ⟨4, 0⟩ ⟨by decide, by decide⟩,
    C6_invariant_no_panic.2.2.2.2.2.2 (Snek.new STARTING_BODY) ⟨by decide, by decide⟩⟩

/-- Claim C7: whenever the body is at least start_len long, `score` returns
current length minus start_len (a natural number, hence never negative), and
a freshly constructed snake has score 0. -/
theorem C7_score :
    (∀ s : Snek, s.start_len ≤ s.body.length →
        s.score = some (s.body.length - s.start_len)) ∧
    (∀ starting_body : List Point, (Snek.new starting_body).score = some 0) := by
  constructor
  · intro s h
    rw [Snek.score, if_pos h]
  · intro starting_body
    simp [Snek.score, Snek.new]

/-- Witness for C7: a snake that has grown from one to three segments scores
two; the starting snake scores zero. -/
theorem C7_score_witness :
    (⟨[⟨0, 0⟩, ⟨1, 0⟩, ⟨2, 0⟩], 1, .Right, false, true⟩ : Snek).score =
        some ((⟨[⟨0, 0⟩, ⟨1, 0⟩, ⟨2, 0⟩], 1, .Right, false, true⟩ : Snek).body.length -
          (⟨[⟨0, 0⟩, ⟨1, 0⟩, ⟨2, 0⟩], 1, .Right, false, true⟩ : Snek).start_len) ∧
      (Snek.new STARTING_BODY).score = some 0 :=
  ⟨C7_score.1 ⟨[⟨0, 0⟩, ⟨1, 0⟩, ⟨2, 0⟩], 1, .Right, false, true⟩ (by decide),
    C7_score.2 STARTING_BODY⟩

/-- Claim C8: on a positive grid, a point returned by `rand_point` is not a
member of the exclude list and lies inside `[0,width) × [0,height)`. -/
theorem C8_rand_point (width height : Nat) (exclude : List Point)
    (stream : Nat → Nat × Nat) (fuel : Nat) (p : Point)
    (hw : 0 < width) (hh : 0 < height)
    (hp : rand_point width height exclude stream fuel = some p) :
    p ∉ exclude ∧ 0 ≤ p.x ∧ p.x < width ∧ 0 ≤ p.y ∧ p.y < height :=
  ⟨rand_point_not_mem width height exclude stream fuel p hp,
    rand_point_in_grid width height exclude stream fuel p hw hh hp⟩

/-- Witness for C8: a draw on a 5×5 grid whose first sample is rejected. -/
theorem C8_rand_point_witness :
    (⟨1, 1⟩ : Point) ∉ [(⟨0, 0⟩ : Point)] ∧ 0 ≤ (⟨1, 1⟩ : Point).x ∧
      (⟨1, 1⟩ : Point).x < ((5 : Nat) : Int) ∧ 0 ≤ (⟨1, 1⟩ : Point).y ∧
      (⟨1, 1⟩ : Point).y < ((5 : Nat) : Int) :=
  C8_rand_point 5 5 [⟨0, 0⟩] (fun i => (i, i)) 3 ⟨1, 1⟩ (by decide) (by decide) (by decide)

/-- Claim C9: if the exclude list covers every grid cell, the rejection loop
of `rand_point` never returns, for every stream and any amount of fuel; and
whenever some stream draw misses the exclude list — the event that has
probability one as soon as a free cell exists — the loop returns within that
many steps. -/
theorem C9_rand_point_termination (width height : Nat) (exclude : List Point)
    (hw : 0 < width) (hh : 0 < height) :
    ((∀ p : Point, 0 ≤ p.x → p.x < width → 0 ≤ p.y → p.y < height → p ∈ exclude) →
        ∀ stream fuel, rand_point width height exclude stream fuel = none) ∧
    (∀ stream i, draw width height stream i ∉ exclude →
        ∀ fuel, i < fuel → (rand_point width height exclude stream fuel).isSome) := by
  constructor
  · intro hcov stream fuel
    exact rand_point_from_none_of_cover width height exclude stream hw hh hcov fuel 0
  · intro stream i hmiss fuel hi
    exact rand_point_from_isSome_of_hit width height exclude stream fuel 0 i
      (Nat.zero_le i) (by omega) hmiss

/-- Witness for C9: the fully occupied 1×1 grid never yields a point, while a
2×2 grid with one occupied cell yields one as soon as a draw misses it. -/
theorem C9_rand_point_termination_witness :
    rand_point 1 1 [⟨0, 0⟩] (fun _ => (0, 0)) 5 = none ∧
      (rand_point 2 2 [⟨0, 0⟩] (fun _ => (1, 1)) 1).isSome :=
  ⟨(C9_rand_point_termination 1 1 [⟨0, 0⟩] (by decide) (by decide)).1
      (by
        intro p h1 h2 h3 h4
        obtain ⟨px, py⟩ := p
        have h1x : (0 : Int) ≤ px := h1
        have h2x : px < ((1 : Nat) : Int) := h2
        have h3y : (0 : Int) ≤ py := h3
        have h4y : py < ((1 : Nat) : Int) := h4
        have hx : px = 0 := by omega
        have hy : py = 0 := by omega
        subst hx
        subst hy
        exact List.mem_singleton_self _)
      (fun _ => (0, 0)) 5,
    (C9_rand_point_termination 2 2 [⟨0, 0⟩] (by decide) (by decide)).2
      (fun _ => (1, 1)) 0 (by decide) 1 (by decide)⟩

/-- Claim C10: a completed slither call touches only the body, the eating
flag and the food out-parameter: direction, start_len and alive are
unchanged, and an eating flag that is false at entry is false again at
return on both the eating and the non-eating path. -/
theorem C10_slither_frame (s : Snek) (food : Point) (width height : Nat)
    (stream : Nat → Nat × Nat) (fuel : Nat) (s2 : Snek) (food2 : Point)
    (hok : s.slither food width height stream fuel = .ok s2 food2) :
    s2.direction = s.direction ∧ s2.start_len = s.start_len ∧
      s2.alive = s.alive ∧ (s.eating = false → s2.eating = false) := by
  have hnil := slither_ok_ne_nil s food width height stream fuel s2 food2 hok
  obtain ⟨last, hlast⟩ := body_getLast_exists s hnil
  obtain ⟨h1, h2, h3, hcase⟩ :=
    slither_ok_spec s food width height stream fuel last s2 food2 hlast hok
  refine ⟨h1, h2, h3, fun _ => ?_⟩
  rcases hcase with ⟨-, -, -, -, he⟩ | ⟨-, -, -, he⟩ <;> exact he

/-- Witness for C10: the frame of a non-eating slither of the starting
snake. -/
theorem C10_slither_frame_witness :
    (⟨[⟨1, 0⟩, ⟨2, 0⟩, ⟨3, 0⟩, ⟨4, 0⟩], 4, .Right, false, true⟩ : Snek).direction =
        (Snek.new STARTING_BODY).direction ∧
      (⟨[⟨1, 0⟩, ⟨2, 0⟩, ⟨3, 0⟩, ⟨4, 0⟩], 4, .Right, false, true⟩ : Snek).start_len =
        (Snek.new STARTING_BODY).start_len ∧
      (⟨[⟨1, 0⟩, ⟨2, 0⟩, ⟨3, 0⟩, ⟨4, 0⟩], 4, .Right, false, true⟩ : Snek).alive =
        (Snek.new STARTING_BODY).alive ∧
      (⟨[⟨1, 0⟩, ⟨2, 0⟩, ⟨3, 0⟩, ⟨4, 0⟩], 4, .Right, false, true⟩ : Snek).eating = false :=
  have h := C10_slither_frame (Snek.new STARTING_BODY) ⟨9, 9⟩ 17 15 (fun _ => (0, 0)) 1
    ⟨[⟨1, 0⟩, ⟨2, 0⟩, ⟨3, 0⟩, ⟨4, 0⟩], 4, .Right, false, true⟩ ⟨9, 9⟩ (by decide)
  ⟨h.1, h.2.1, h.2.2.1, h.2.2.2 rfl⟩

end SnekGame
